import Mathlib

/-!
Verification of the Databricks PySpark step launcher
(`dagster_databricks/databricks_pyspark_step_launcher.py`).

The development shallowly embeds the event-recovery protocol of
`DatabricksPySparkStepLauncher`: the per-cycle event-log read
(`get_new_events`), the two-phase polling loop (`step_events_iterator`),
the `launch_step` cleanup path, the DBFS path renderings, the remote
storage bootstrap (`DatabricksConfig.setup_storage`) and the constructor
invariant checks.  Domain events are abstracted as natural numbers;
exception identities are abstracted as natural numbers as well.
-/

namespace DbxLauncher

/-- One entry of the remote event log (`RemoteEventRecord`): either the
completion sentinel `databricks_step_main.LOGS_COMPLETE`, or a log record
whose `dagster_event` metadata field deserializes to an optional domain
event (`None` models a plain log record carrying no dagster event;
`get_new_events` only appends truthy events). -/
inductive Rec where
  | sentinel : Rec
  | event : Option Nat → Rec
deriving DecidableEq, Repr

/-- Outcome of one `read_file` attempt inside `get_new_events`:
a successful read whose bytes unpickle to a record list, a read of falsy
(empty) bytes, an `HTTPError` with error code `RESOURCE_DOES_NOT_EXIST`,
an `HTTPError` with any other code (carrying the exception identity), or
a generic exception (carrying the exception identity). -/
inductive ReadResult where
  | ok : List Rec → ReadResult
  | emptyFile : ReadResult
  | notFound : ReadResult
  | httpOther : Nat → ReadResult
  | exn : Nat → ReadResult
deriving DecidableEq, Repr

/-- The exception identity of a read attempt that the code treats as a
generic transient failure (falls through to the retry counter); `none`
for the outcomes that return immediately. -/
def transientErrOf : ReadResult → Option Nat
  | ReadResult.httpOther e => some e
  | ReadResult.exn e => some e
  | _ => none

/-- Python list slicing `l[k:]` for an `int` index `k`: a non-negative
start drops `k` elements, a negative start begins at `max 0 (len + k)`.
`Int.toNat` clamps negative values to `0`, matching the `max`. -/
def pySliceFrom (l : List Rec) (k : Int) : List Rec :=
  if 0 ≤ k then l.drop k.toNat else l.drop ((l.length : Int) + k).toNat

/-- The record-scanning loop of `get_new_events` (lines 240-254): walk the
sliced records in order, collecting each truthy `dagster_event`; stop at the
first record equal to the completion sentinel.  Returns the collected
events and whether the sentinel was reached. -/
def scanRecords : List Rec → List Nat × Bool
  | [] => ([], false)
  | Rec.sentinel :: _ => ([], true)
  | Rec.event p :: rest =>
    let r := scanRecords rest
    (p.toList ++ r.1, r.2)

/-- The successful-read body of `get_new_events` (lines 238-256): slice the
unpickled record list at `processed_records` (Python slicing, so a negative
offset counts from the end), scan the suffix, and return the new offset:
`-1` if the sentinel was reached, otherwise the old offset advanced by the
length of the slice. -/
def processLog (records : List Rec) (processed : Int) : List Nat × Int :=
  let slice := pySliceFrom records processed
  let r := scanRecords slice
  if r.2 then (r.1, -1) else (r.1, processed + slice.length)

/-- The retry loop of `get_new_events` (lines 233-266), by fuel recursion:
`reads attempt` is the outcome of the `attempt`-th `read_file` call.  A
successful read (or falsy bytes, or a `RESOURCE_DOES_NOT_EXIST` error)
returns immediately; a transient failure increments `cur_retries` and, once
`cur_retries == 3`, raises the last error.  The fuel-0 base case is
unreachable from the entry point, which supplies fuel 3. -/
def getNewEventsAux (reads : Nat → ReadResult) (processed : Int) :
    Nat → Nat → Except Nat (List Nat × Int)
  | _, 0 => Except.error 0
  | attempt, fuel + 1 =>
    match reads attempt with
    | ReadResult.ok records => Except.ok (processLog records processed)
    | ReadResult.emptyFile => Except.ok ([], processed)
    | ReadResult.notFound => Except.ok ([], processed)
    | ReadResult.httpOther e =>
      if fuel = 0 then Except.error e
      else getNewEventsAux reads processed (attempt + 1) fuel
    | ReadResult.exn e =>
      if fuel = 0 then Except.error e
      else getNewEventsAux reads processed (attempt + 1) fuel

/-- `DatabricksPySparkStepLauncher.get_new_events` (lines 227-266): one
read-and-forward cycle at the given offset, with up to three read attempts.
`Except.error e` models raising exception `e`; `Except.ok (events, n)`
models returning the batch `events` and the new offset `n`. -/
def get_new_events (reads : Nat → ReadResult) (processed : Int) :
    Except Nat (List Nat × Int) :=
  getNewEventsAux reads processed 0 3

/-- The domain events carried by a record list, in log order: exactly what
the scanning loop collects when no sentinel interrupts it. -/
def collectEvents (l : List Rec) : List Nat :=
  l.flatMap fun r =>
    match r with
    | Rec.sentinel => []
    | Rec.event p => p.toList

/-- True on every record other than the completion sentinel. -/
def isNotSentinel : Rec → Bool
  | Rec.sentinel => false
  | Rec.event _ => true

theorem scanRecords_no_sentinel (l : List Rec) (h : Rec.sentinel ∉ l) :
    scanRecords l = (collectEvents l, false) := by
  induction l with
  | nil => rfl
  | cons r rest ih =>
    cases r with
    | sentinel => exact absurd (List.mem_cons_self _ _) h
    | event p =>
      have hrest : Rec.sentinel ∉ rest := fun hm => h (List.mem_cons_of_mem _ hm)
      simp [scanRecords, collectEvents, ih hrest]

theorem scanRecords_with_sentinel (l : List Rec) (h : Rec.sentinel ∈ l) :
    scanRecords l = (collectEvents (l.takeWhile isNotSentinel), true) := by
  induction l with
  | nil => cases h
  | cons r rest ih =>
    cases r with
    | sentinel => simp [scanRecords, List.takeWhile, isNotSentinel, collectEvents]
    | event p =>
      have hrest : Rec.sentinel ∈ rest := by
        rcases List.mem_cons.mp h with h1 | h2
        · cases h1
        · exact h2
      simp [scanRecords, List.takeWhile, isNotSentinel, collectEvents, ih hrest]

theorem scanRecords_map_append_sentinel (evs : List Nat) :
    scanRecords (evs.map (fun e => Rec.event (some e)) ++ [Rec.sentinel])
      = (evs, true) := by
  induction evs with
  | nil => rfl
  | cons e rest ih => simp [scanRecords, ih, Option.toList]

theorem pySliceFrom_ofNat (l : List Rec) (k : Nat) :
    pySliceFrom l (k : Int) = l.drop k := by
  simp [pySliceFrom]

theorem processLog_map_append_sentinel_zero (evs : List Nat) :
    processLog (evs.map (fun e => Rec.event (some e)) ++ [Rec.sentinel]) 0
      = (evs, -1) := by
  have h0 : pySliceFrom (evs.map (fun e => Rec.event (some e)) ++ [Rec.sentinel]) 0
      = evs.map (fun e => Rec.event (some e)) ++ [Rec.sentinel] := by
    simp [pySliceFrom]
  simp [processLog, h0, scanRecords_map_append_sentinel]

theorem processLog_map_append_sentinel_neg_one (evs : List Nat) :
    processLog (evs.map (fun e => Rec.event (some e)) ++ [Rec.sentinel]) (-1)
      = ([], -1) := by
  have hlen : (evs.map (fun e => Rec.event (some e)) ++ [Rec.sentinel]).length
      = evs.length + 1 := by simp
  have hidx : (((evs.map (fun e => Rec.event (some e)) ++ [Rec.sentinel]).length : Int)
      + (-1)).toNat = evs.length := by
    rw [hlen]; push_cast; omega
  have hslice : pySliceFrom (evs.map (fun e => Rec.event (some e)) ++ [Rec.sentinel]) (-1)
      = [Rec.sentinel] := by
    rw [pySliceFrom]
    rw [if_neg (by omega)]
    rw [hidx]
    have := List.drop_left (evs.map (fun e => Rec.event (some e))) [Rec.sentinel]
    simp only [List.length_map] at this
    exact this
  simp [processLog, hslice, scanRecords]

/-- Claim C1: for every event log that is a list of N records whose last
record is the completion sentinel (and whose other records each wrap a
domain event), a read cycle started from offset 0 returns exactly the N-1
non-sentinel domain events in original log order and reports the terminal
offset marker -1; a further read cycle at the terminal marker -1 is a
no-op, returning no events and -1 again. -/
theorem claim_C1 (evs : List Nat) :
    get_new_events
        (fun _ => ReadResult.ok (evs.map (fun e => Rec.event (some e)) ++ [Rec.sentinel])) 0
      = Except.ok (evs, -1)
    ∧ get_new_events
        (fun _ => ReadResult.ok (evs.map (fun e => Rec.event (some e)) ++ [Rec.sentinel])) (-1)
      = Except.ok ([], -1) := by
  constructor
  · show Except.ok (processLog (evs.map (fun e => Rec.event (some e)) ++ [Rec.sentinel]) 0)
      = Except.ok (evs, -1)
    rw [processLog_map_append_sentinel_zero]
  · show Except.ok (processLog (evs.map (fun e => Rec.event (some e)) ++ [Rec.sentinel]) (-1))
      = Except.ok ([], -1)
    rw [processLog_map_append_sentinel_neg_one]

/-- Claim C2: a read cycle at a non-negative offset `k` against a log of
length at least `k` returns exactly the domain events of the records at
indices `[k, length)` — truncated at the sentinel when one is reached — so
no record with index below `k` is ever re-surfaced; the returned offset is
the old offset advanced by the number of records consumed (all of the
suffix when no sentinel is reached), or the terminal marker `-1` when the
sentinel is reached; and, in the sentinel-free case, re-reading the
unchanged log at the advanced offset yields an empty batch at the same
offset, never duplicate events. -/
theorem claim_C2 (log : List Rec) (k : Nat) (hk : k ≤ log.length) :
    (Rec.sentinel ∉ log.drop k →
      processLog log (k : Int)
          = (collectEvents (log.drop k), (k : Int) + (log.drop k).length)
      ∧ processLog log ((k : Int) + ((log.drop k).length : Int))
          = ([], (k : Int) + (log.drop k).length))
    ∧ (Rec.sentinel ∈ log.drop k →
      processLog log (k : Int)
          = (collectEvents ((log.drop k).takeWhile isNotSentinel), -1)) := by
  constructor
  · intro hns
    have hfirst : processLog log (k : Int)
        = (collectEvents (log.drop k), (k : Int) + (log.drop k).length) := by
      simp [processLog, pySliceFrom_ofNat, scanRecords_no_sentinel _ hns]
    refine ⟨hfirst, ?_⟩
    have hlen : k + (log.drop k).length = log.length := by
      simp [List.length_drop]
      omega
    have hcast : (k : Int) + ((log.drop k).length : Int) = ((log.length : Nat) : Int) := by
      omega
    rw [hcast]
    have hempty : pySliceFrom log ((log.length : Nat) : Int) = [] := by
      rw [pySliceFrom_ofNat]
      simp
    simp [processLog, hempty, scanRecords]
  · intro hs
    simp [processLog, pySliceFrom_ofNat, scanRecords_with_sentinel _ hs]

/-- Witness for C2 at a concrete log and offset, exercising both the
sentinel-free branch and the sentinel-reaching branch. -/
theorem claim_C2_witness :
    processLog [Rec.event (some 4), Rec.event (some 5)] (1 : Int) = ([5], 2)
    ∧ processLog [Rec.event (some 4), Rec.sentinel] (0 : Int) = ([4], -1) := by
  constructor
  · have h := ((claim_C2 [Rec.event (some 4), Rec.event (some 5)] 1 (by decide)).1
      (by decide)).1
    simpa using h
  · have h := (claim_C2 [Rec.event (some 4), Rec.sentinel] 0 (by decide)).2 (by decide)
    simpa using h

theorem getNewEventsAux_transient (reads : Nat → ReadResult) (p : Int)
    (a fuel e : Nat) (h : transientErrOf (reads a) = some e) :
    getNewEventsAux reads p a (fuel + 1)
      = if fuel = 0 then Except.error e
        else getNewEventsAux reads p (a + 1) fuel := by
  cases hr : reads a with
  | ok records => rw [hr] at h; simp [transientErrOf] at h
  | emptyFile => rw [hr] at h; simp [transientErrOf] at h
  | notFound => rw [hr] at h; simp [transientErrOf] at h
  | httpOther e2 =>
    rw [hr] at h
    simp [transientErrOf] at h
    subst h
    simp [getNewEventsAux, hr]
  | exn e2 =>
    rw [hr] at h
    simp [transientErrOf] at h
    subst h
    simp [getNewEventsAux, hr]

/-- Claim C3: an event-log read is attempted up to exactly three times for
generic transient errors (an other-code HTTPError or any other exception).
If the first two attempts fail transiently and the third succeeds, the
cycle returns exactly the batch and offset it would have returned had the
first attempt succeeded (retries are transparent); if all three attempts
fail transiently, the last error is raised and no batch is returned. -/
theorem claim_C3 (reads : Nat → ReadResult) (processed : Int) (e0 e1 : Nat)
    (h0 : transientErrOf (reads 0) = some e0)
    (h1 : transientErrOf (reads 1) = some e1) :
    (∀ records, reads 2 = ReadResult.ok records →
      get_new_events reads processed
        = get_new_events (fun _ => ReadResult.ok records) processed)
    ∧ (∀ e2, transientErrOf (reads 2) = some e2 →
      get_new_events reads processed = Except.error e2) := by
  have step0 := getNewEventsAux_transient reads processed 0 2 e0 h0
  have step1 := getNewEventsAux_transient reads processed 1 1 e1 h1
  constructor
  · intro records h2
    show getNewEventsAux reads processed 0 3 = _
    rw [step0]
    simp only [if_neg (by omega : ¬ (2 : Nat) = 0)]
    rw [step1]
    simp only [if_neg (by omega : ¬ (1 : Nat) = 0)]
    simp [getNewEventsAux, h2, get_new_events]
  · intro e2 h2
    have step2 := getNewEventsAux_transient reads processed 2 0 e2 h2
    show getNewEventsAux reads processed 0 3 = _
    rw [step0]
    simp only [if_neg (by omega : ¬ (2 : Nat) = 0)]
    rw [step1]
    simp only [if_neg (by omega : ¬ (1 : Nat) = 0)]
    rw [step2]
    simp

/-- Witness for C3: two concrete read sequences, one succeeding on the
third attempt and one failing on all three. -/
theorem claim_C3_witness :
    get_new_events
        (fun i => if i = 0 then ReadResult.exn 8
          else if i = 1 then ReadResult.httpOther 9
          else ReadResult.ok [Rec.sentinel]) 0
      = get_new_events (fun _ => ReadResult.ok [Rec.sentinel]) 0
    ∧ get_new_events
        (fun i => if i = 0 then ReadResult.exn 8
          else if i = 1 then ReadResult.httpOther 9
          else ReadResult.exn 10) 0
      = Except.error 10 := by
  constructor
  · exact (claim_C3 _ 0 8 9 (by decide) (by decide)).1 [Rec.sentinel] (by decide)
  · exact (claim_C3 _ 0 8 9 (by decide) (by decide)).2 10 (by decide)

/-- Claim C4: for every offset `n`, a read cycle against a log path that
has never been written — the first read attempt reports the recognized
`RESOURCE_DOES_NOT_EXIST` condition — returns an empty batch with the
offset `n` unchanged and raises no error; the outcomes of the later read
attempts are unconstrained, so no retry attempt is consumed. -/
theorem claim_C4 (reads : Nat → ReadResult) (n : Int)
    (h : reads 0 = ReadResult.notFound) :
    get_new_events reads n = Except.ok ([], n) := by
  show getNewEventsAux reads n 0 3 = _
  simp [getNewEventsAux, h]

/-- Witness for C4 at offset 5 against an always-missing log. -/
theorem claim_C4_witness :
    get_new_events (fun _ => ReadResult.notFound) 5 = Except.ok ([], 5) :=
  claim_C4 _ 5 rfl

/-- Outcome of one `poll_run_state` call in phase A of
`step_events_iterator` (lines 195-201): a returned done-flag, or a raised
exception. -/
inductive PollResult where
  | ok : Bool → PollResult
  | raises : PollResult
deriving DecidableEq, Repr

/-- How one phase-A tick terminates: continue/exit the loop with the
returned done-flag, propagate the poll exception after the `finally` block
ran, or propagate an exception raised by the read itself inside the
`finally` block (which replaces any pending poll exception). -/
inductive TickOutcome where
  | next : Bool → TickOutcome
  | pollRaised : TickOutcome
  | readRaised : Nat → TickOutcome
deriving DecidableEq, Repr

/-- One phase-A tick of `step_events_iterator` (lines 190-207): run
`poll_run_state` inside `try`, then — in the `finally` block, hence whether
or not the poll raised — run `get_new_events` and yield its batch.  Returns
the yielded events, the resulting offset, and how the tick terminated.  If
the read raises, nothing is yielded and the read error propagates
(replacing a pending poll exception, per Python `finally` semantics). -/
def phaseATick (poll : PollResult) (reads : Nat → ReadResult) (processed : Int) :
    List Nat × Int × TickOutcome :=
  match get_new_events reads processed with
  | Except.error e => ([], processed, TickOutcome.readRaised e)
  | Except.ok (evs, p2) =>
    match poll with
    | PollResult.ok done => (evs, p2, TickOutcome.next done)
    | PollResult.raises => (evs, p2, TickOutcome.pollRaised)

/-- The events forwarded by a read cycle when it succeeds; none when it
raises. -/
def eventsOfRead : Except Nat (List Nat × Int) → List Nat
  | Except.ok (evs, _) => evs
  | Except.error _ => []

/-- The offset after a read cycle: the returned offset when it succeeds,
the old offset when it raises. -/
def offsetAfterRead (processed : Int) : Except Nat (List Nat × Int) → Int
  | Except.ok (_, p2) => p2
  | Except.error _ => processed

/-- Claim C6: on every phase-A poll tick, exactly one read-and-forward
cycle executes whether or not the status query raised: the events yielded
by the tick and the resulting offset are exactly those produced by one
invocation of `get_new_events`, for every poll outcome including a raised
status check — a transient status-check failure never skips the event read
for that tick. -/
theorem claim_C6 (poll : PollResult) (reads : Nat → ReadResult) (processed : Int) :
    (phaseATick poll reads processed).1 = eventsOfRead (get_new_events reads processed)
    ∧ (phaseATick poll reads processed).2.1
        = offsetAfterRead processed (get_new_events reads processed) := by
  cases h : get_new_events reads processed with
  | error e =>
    cases poll <;> simp [phaseATick, eventsOfRead, offsetAfterRead, h]
  | ok v =>
    obtain ⟨evs, p2⟩ := v
    cases poll <;> simp [phaseATick, eventsOfRead, offsetAfterRead, h]

/-- Result of the phase-B loop of `step_events_iterator` (lines 211-225):
normal exit on the terminal marker, the fatal log-availability timeout
(`DatabricksError`), a propagated read error, or fuel exhaustion (the
modelling artifact for a loop that has not yet terminated), each carrying
the events yielded before that point. -/
inductive PhaseBResult where
  | done : List Nat → PhaseBResult
  | timeout : List Nat → PhaseBResult
  | readRaised : List Nat → Nat → PhaseBResult
  | fuelOut : List Nat → PhaseBResult
deriving DecidableEq, Repr

/-- Prefix the events yielded in an earlier iteration onto a phase-B
result. -/
def PhaseBResult.prepend (evs : List Nat) : PhaseBResult → PhaseBResult
  | PhaseBResult.done l => PhaseBResult.done (evs ++ l)
  | PhaseBResult.timeout l => PhaseBResult.timeout (evs ++ l)
  | PhaseBResult.readRaised l e => PhaseBResult.readRaised (evs ++ l) e
  | PhaseBResult.fuelOut l => PhaseBResult.fuelOut (evs ++ l)

/-- The phase-B loop of `step_events_iterator` (lines 211-225), by fuel
recursion: while the offset is not the terminal marker `-1`, check the
elapsed-time budget (`env i` gives, for tick `i`, whether
`time.time() - start > max_wait_time_sec` together with that tick's read
outcomes), raising the fatal timeout when over budget, and otherwise run
one `get_new_events` cycle, yield its batch, and continue with the new
offset.  Job status is not consulted anywhere in this loop. -/
def phaseB (env : Nat → Bool × (Nat → ReadResult)) :
    Nat → Int → Nat → PhaseBResult
  | 0, processed, _ =>
    if processed = -1 then PhaseBResult.done [] else PhaseBResult.fuelOut []
  | fuel + 1, processed, i =>
    if processed = -1 then PhaseBResult.done []
    else if (env i).1 then PhaseBResult.timeout []
    else
      match get_new_events (env i).2 processed with
      | Except.error e => PhaseBResult.readRaised [] e
      | Except.ok (evs, p2) => PhaseBResult.prepend evs (phaseB env fuel p2 (i + 1))

/-- Claim C5: after the job is terminal, the recovery loop stops exactly
when the terminal offset marker `-1` is observed (yielding nothing more);
while the marker has not been observed, a tick over the maximum-wait
budget (measured from submission) raises the fatal log-availability
timeout with no further events produced; and a tick within budget invokes
the same read cycle `get_new_events` independent of any job status —
phase B consults none — and continues with its batch and new offset. -/
theorem claim_C5 (env : Nat → Bool × (Nat → ReadResult)) (fuel i : Nat)
    (processed : Int) :
    (phaseB env fuel (-1) i = PhaseBResult.done [])
    ∧ (processed ≠ -1 → (env i).1 = true →
        phaseB env (fuel + 1) processed i = PhaseBResult.timeout [])
    ∧ (∀ evs p2, processed ≠ -1 → (env i).1 = false →
        get_new_events (env i).2 processed = Except.ok (evs, p2) →
        phaseB env (fuel + 1) processed i
          = PhaseBResult.prepend evs (phaseB env fuel p2 (i + 1))) := by
  refine ⟨?_, ?_, ?_⟩
  · cases fuel <;> simp [phaseB]
  · intro h hover
    simp [phaseB, h, hover]
  · intro evs p2 h hover hread
    simp [phaseB, h, hover, hread]

/-- Witness for C5: a concrete environment exercising the terminal-marker
exit, the over-budget timeout, and the within-budget read-and-continue
cases. -/
theorem claim_C5_witness :
    phaseB (fun _ => (true, fun _ => ReadResult.notFound)) 2 (-1) 0
        = PhaseBResult.done []
    ∧ phaseB (fun _ => (true, fun _ => ReadResult.notFound)) 1 0 0
        = PhaseBResult.timeout []
    ∧ phaseB (fun _ => (false, fun _ => ReadResult.notFound)) 1 0 0
        = PhaseBResult.prepend []
            (phaseB (fun _ => (false, fun _ => ReadResult.notFound)) 0 0 1) :=
  ⟨(claim_C5 (fun _ => (true, fun _ => ReadResult.notFound)) 2 0 0).1,
   (claim_C5 (fun _ => (true, fun _ => ReadResult.notFound)) 0 0 0).2.1
     (by decide) rfl,
   (claim_C5 (fun _ => (false, fun _ => ReadResult.notFound)) 0 0 0).2.2 [] 0
     (by decide) rfl rfl⟩

/-- `DatabricksPySparkStepLauncher._log_logs_from_cluster` (lines 329-337):
call `retrieve_logs_for_run_id`; if it returns `None` do nothing, otherwise
log the stdout/stderr pair.  The method contains no exception handling, so
an exception raised by the retrieval call propagates to its caller. -/
def logLogsFromCluster (retrieve : Except Nat (Option (Nat × Nat))) : Except Nat Unit :=
  match retrieve with
  | Except.error e => Except.error e
  | Except.ok _ => Except.ok ()

/-- The `try/finally` of `launch_step` (lines 170-175): after the body of
the launch finishes with outcome `body` (normal or raised), the `finally`
block runs `_log_logs_from_cluster` exactly when `wait_for_logs` is set.
Per Python semantics an exception raised inside the `finally` block
replaces the pending outcome.  The second component records whether the
retrieval step was invoked. -/
def launchStepFinal (body : Except Nat Unit) (waitForLogs : Bool)
    (retrieve : Except Nat (Option (Nat × Nat))) : Except Nat Unit × Bool :=
  if waitForLogs then
    match logLogsFromCluster retrieve with
    | Except.error e => (Except.error e, true)
    | Except.ok _ => (body, true)
  else (body, false)

/-- Counterexample to claim C7 as stated: with `wait_for_logs` set and a
successfully completed launch body, a retrieval step that raises error 7
makes the launch exit with error 7 — the retrieval failure is propagated
to the caller as the launch outcome, not caught and logged. -/
theorem claim_C7_counterexample :
    (launchStepFinal (Except.ok ()) true (Except.error 7)).1 = Except.error 7
    ∧ (launchStepFinal (Except.ok ()) true (Except.error 7)).1 ≠ Except.ok () := by
  constructor
  · rfl
  · intro h
    exact Except.noConfusion ((rfl : (launchStepFinal (Except.ok ()) true
      (Except.error 7)).1 = Except.error 7) ▸ h)

/-- Claim C7 (amended): when the launch exits (whatever the body outcome)
with `wait_for_logs` configured, the best-effort remote-log retrieval step
runs; but a failure raised by that retrieval step is not caught — it
propagates to the caller as the launch outcome, replacing the body's
outcome; only when retrieval does not raise is the body's outcome
preserved.  Without `wait_for_logs`, retrieval does not run. -/
theorem claim_C7_amended (body : Except Nat Unit)
    (retrieve : Except Nat (Option (Nat × Nat))) :
    (launchStepFinal body true retrieve).2 = true
    ∧ (launchStepFinal body false retrieve).2 = false
    ∧ (∀ e, retrieve = Except.error e →
        (launchStepFinal body true retrieve).1 = Except.error e)
    ∧ (∀ v, retrieve = Except.ok v →
        (launchStepFinal body true retrieve).1 = body) := by
  refine ⟨?_, ?_, ?_, ?_⟩
  · cases retrieve <;> simp [launchStepFinal, logLogsFromCluster]
  · simp [launchStepFinal]
  · intro e he
    subst he
    simp [launchStepFinal, logLogsFromCluster]
  · intro v hv
    subst hv
    simp [launchStepFinal, logLogsFromCluster]

/-- Witness for the amended C7: a failed launch body with a raising
retrieval, and the same body with a successful retrieval. -/
theorem claim_C7_amended_witness :
    (launchStepFinal (Except.error 3) true (Except.error 7)).1 = Except.error 7
    ∧ (launchStepFinal (Except.error 3) true (Except.ok none)).1 = Except.error 3 :=
  ⟨(claim_C7_amended (Except.error 3) (Except.error 7)).2.2.1 7 rfl,
   (claim_C7_amended (Except.error 3) (Except.ok none)).2.2.2 none rfl⟩

/-- The escape of one step-key character: `[` and `]` become `__`, every
other character is kept.  The source applies
`.replace("[", "__").replace("]", "__")` sequentially; since `__` contains
no `]`, the two sequential replacements equal this single pass. -/
def escChar (c : Char) : List Char :=
  if c = '[' then ['_', '_'] else if c = ']' then ['_', '_'] else [c]

/-- The step-key escaping used by both path renderings (lines 350, 362). -/
def escapeStepKey (s : String) : String :=
  String.mk (s.data.flatMap escChar)

/-- `os.path.basename`: the part of the path after the last `/`. -/
def basenameAux (acc : List Char) : List Char → List Char
  | [] => acc
  | c :: rest =>
    if c = '/' then basenameAux [] rest else basenameAux (acc ++ [c]) rest

/-- `os.path.basename` on a POSIX path string. -/
def basename (s : String) : String := String.mk (basenameAux [] s.data)

/-- The `"/".join([...])` common to both renderings (lines 346-353 and
358-365): staging root, run id, escaped step key, file basename. -/
def joinStaged (staging runId stepKey filename : String) : String :=
  staging ++ "/" ++ runId ++ "/" ++ escapeStepKey stepKey ++ "/" ++ basename filename

/-- `DatabricksPySparkStepLauncher._dbfs_path` (lines 345-354). -/
def dbfs_path (staging runId stepKey filename : String) : String :=
  "dbfs://" ++ joinStaged staging runId stepKey filename

/-- `DatabricksPySparkStepLauncher._internal_dbfs_path` (lines 356-366). -/
def internal_dbfs_path (staging runId stepKey filename : String) : String :=
  "/dbfs/" ++ joinStaged staging runId stepKey filename

/-- Claim C8: both path renderings are pure deterministic functions of
(staging root, run id, step key, file name) — equal inputs give equal
paths — and they differ from each other only in their fixed prefixes
(`dbfs://` versus `/dbfs/`) before an identical joined remainder, in which
each `[` and `]` of the step key is replaced by `__`; in particular for
run id `r`, step key `a[0]`, file `x.bin` the step-key component is
rendered `a__0__` in both. -/
theorem claim_C8 (staging runId stepKey filename : String) :
    dbfs_path staging runId stepKey filename
        = "dbfs://" ++ joinStaged staging runId stepKey filename
    ∧ internal_dbfs_path staging runId stepKey filename
        = "/dbfs/" ++ joinStaged staging runId stepKey filename
    ∧ (∀ s2 r2 k2 f2, staging = s2 → runId = r2 → stepKey = k2 → filename = f2 →
        dbfs_path staging runId stepKey filename = dbfs_path s2 r2 k2 f2
        ∧ internal_dbfs_path staging runId stepKey filename
            = internal_dbfs_path s2 r2 k2 f2)
    ∧ escapeStepKey "a[0]" = "a__0__"
    ∧ dbfs_path "/dagster_staging" "r" "a[0]" "x.bin"
        = "dbfs:///dagster_staging/r/a__0__/x.bin"
    ∧ internal_dbfs_path "/dagster_staging" "r" "a[0]" "x.bin"
        = "/dbfs//dagster_staging/r/a__0__/x.bin" := by
  refine ⟨rfl, rfl, ?_, ?_, ?_, ?_⟩
  · intro s2 r2 k2 f2 h1 h2 h3 h4
    subst h1; subst h2; subst h3; subst h4
    exact ⟨rfl, rfl⟩
  · decide
  · decide
  · decide

/-- Witness for C8 at the concrete inputs of the claim. -/
theorem claim_C8_witness :
    dbfs_path "/dagster_staging" "r" "a[0]" "x.bin"
        = "dbfs://" ++ joinStaged "/dagster_staging" "r" "a[0]" "x.bin"
    ∧ dbfs_path "/dagster_staging" "r" "a[0]" "x.bin"
        = dbfs_path "/dagster_staging" "r" "a[0]" "x.bin" :=
  ⟨(claim_C8 "/dagster_staging" "r" "a[0]" "x.bin").1,
   ((claim_C8 "/dagster_staging" "r" "a[0]" "x.bin").2.2.1
     "/dagster_staging" "r" "a[0]" "x.bin" rfl rfl rfl rfl).1⟩

/-- The `storage` dict handed to `DatabricksConfig`: presence of an `"s3"`
key and/or an `"adls2"` key, each with its (abstracted) credential
configuration. -/
structure Storage where
  s3 : Option Nat
  adls2 : Option Nat
deriving DecidableEq, Repr

/-- Outcome of `DatabricksConfig.setup_storage`: which variant had its
credentials configured (`setup_s3_storage` / `setup_adls2_storage`), or the
fatal `Exception("No valid storage found...")`. -/
inductive SetupResult where
  | configuredS3 : Nat → SetupResult
  | configuredAdls2 : Nat → SetupResult
  | fatal : SetupResult
deriving DecidableEq, Repr

/-- `DatabricksConfig.setup_storage` (lines 403-410): configure S3 if the
`"s3"` key is present, else ADLS2 if the `"adls2"` key is present, else
raise. -/
def setup_storage (st : Storage) : SetupResult :=
  match st.s3 with
  | some c => SetupResult.configuredS3 c
  | none =>
    match st.adls2 with
    | some c => SetupResult.configuredAdls2 c
    | none => SetupResult.fatal

/-- Claim C9: the remote bootstrap's storage setup configures credentials
for exactly one storage variant — S3 when present, otherwise ADLS2 — and
fails fatally if and only if neither recognized variant is present in the
deserialized config; hence under the data-model invariant that at least
(in particular, exactly) one variant is present, the failure branch is
unreachable. -/
theorem claim_C9 (st : Storage) :
    (setup_storage st = SetupResult.fatal ↔ st.s3 = none ∧ st.adls2 = none)
    ∧ (∀ c, st.s3 = some c → setup_storage st = SetupResult.configuredS3 c)
    ∧ (∀ c, st.s3 = none → st.adls2 = some c →
        setup_storage st = SetupResult.configuredAdls2 c)
    ∧ ((st.s3 ≠ none ∨ st.adls2 ≠ none) → setup_storage st ≠ SetupResult.fatal) := by
  obtain ⟨s3, a2⟩ := st
  cases s3 <;> cases a2 <;> simp [setup_storage]

/-- Witness for C9: one config per variant and the no-variant config. -/
theorem claim_C9_witness :
    setup_storage ⟨some 1, none⟩ = SetupResult.configuredS3 1
    ∧ setup_storage ⟨none, some 2⟩ = SetupResult.configuredAdls2 2
    ∧ setup_storage ⟨none, none⟩ = SetupResult.fatal :=
  ⟨(claim_C9 ⟨some 1, none⟩).2.1 1 rfl,
   (claim_C9 ⟨none, some 2⟩).2.2.1 2 rfl rfl,
   (claim_C9 ⟨none, none⟩).1.mpr ⟨rfl, rfl⟩⟩

/-- Python truthiness of an optional string: `None` and `""` are falsy. -/
def pyTruthyStr : Option String → Bool
  | none => false
  | some s => !s.isEmpty

/-- Python `a or b` on optional strings. -/
def pyOrStr (a b : Option String) : Option String :=
  if pyTruthyStr a then a else b

/-- Outcome of the package-path part of
`DatabricksPySparkStepLauncher.__init__` (lines 135-146): the stored
`local_dagster_job_package_path` on success, or which check raised. -/
inductive InitResult where
  | ok : String → InitResult
  | invariantOneFailure : InitResult
  | invariantTwoFailure : InitResult
  | strParamFailure : InitResult
deriving DecidableEq, Repr

/-- The two `check.invariant` calls and the `check.str_param` assignment of
`__init__` (lines 135-146): the first invariant needs at least one of the
two paths to be non-`None`; the second needs `local_dagster_job_package_path`
to be `None` or `local_pipeline_package_path` to be truthy; the stored path
is `local_pipeline_package_path or local_dagster_job_package_path`, which
`check.str_param` requires to be a string (not `None`). -/
def initPackagePath (pipelinePath dagsterJobPath : Option String) : InitResult :=
  if pipelinePath.isSome || dagsterJobPath.isSome then
    if dagsterJobPath.isNone || pyTruthyStr pipelinePath then
      match pyOrStr pipelinePath dagsterJobPath with
      | some s => InitResult.ok s
      | none => InitResult.strParamFailure
    else InitResult.invariantTwoFailure
  else InitResult.invariantOneFailure

/-- Claim C10: a configuration supplying `local_dagster_job_package_path`
while omitting `local_pipeline_package_path` fails the second invariant
check, so construction raises; construction succeeds only when
`local_pipeline_package_path` is provided (and the stored path is then
exactly that value); and when both paths are provided (the pipeline one
non-empty), the pipeline path is the one used. -/
theorem claim_C10 :
    (∀ dj : String, initPackagePath none (some dj) = InitResult.invariantTwoFailure)
    ∧ (∀ (p d : Option String) (s : String),
        initPackagePath p d = InitResult.ok s → p = some s)
    ∧ (∀ p d : String, ¬ p = "" →
        initPackagePath (some p) (some d) = InitResult.ok p) := by
  refine ⟨?_, ?_, ?_⟩
  · intro dj
    simp [initPackagePath, pyTruthyStr]
  · intro p d s h
    cases p with
    | none =>
      exfalso
      cases d <;> simp [initPackagePath, pyTruthyStr, pyOrStr] at h
    | some p0 =>
      by_cases hp : p0.isEmpty
      · exfalso
        cases d <;> simp [initPackagePath, pyTruthyStr, pyOrStr, hp] at h
      · cases d <;>
          simp only [initPackagePath, pyTruthyStr, pyOrStr, hp, Option.isSome,
            Option.isNone, Bool.true_or, Bool.or_true, Bool.not_false, if_true,
            Bool.or_self, ite_true] at h <;>
          simp_all [initPackagePath, pyTruthyStr, pyOrStr]
  · intro p d hp
    have hp2 : p.isEmpty = false := by
      cases hb : p.isEmpty
      · rfl
      · exact absurd ((String.isEmpty_iff p).mp hb) hp
    simp [initPackagePath, pyTruthyStr, pyOrStr, hp2]

/-- Witness for C10: a dagster-job-only config raises the second invariant;
a both-paths config stores the pipeline path; the stored path is the
pipeline argument. -/
theorem claim_C10_witness :
    initPackagePath none (some "/dj") = InitResult.invariantTwoFailure
    ∧ initPackagePath (some "/p") (some "/dj") = InitResult.ok "/p"
    ∧ (some "/p" : Option String) = some "/p" :=
  ⟨claim_C10.1 "/dj",
   claim_C10.2.2 "/p" "/dj" (by decide),
   claim_C10.2.1 (some "/p") (some "/dj") "/p"
     (claim_C10.2.2 "/p" "/dj" (by decide))⟩

end DbxLauncher
